import Mathlib

/-!
Verification of the address-service proximity-search subsystem
(src/main.py): a shallow embedding of the data model, the CRUD endpoints
and the proximity query, together with theorems settling the specified
behavioural claims.

Embedding conventions: Python floats are embedded as exact rationals
(the claims under study concern comparisons and control flow, not
floating-point rounding); the SQLAlchemy session is embedded as explicit
state passing of a store value; an endpoint that can raise an HTTP error
returns an Except value paired with the resulting store, and the error
branches return the incoming store unchanged, mirroring that the source
raises before any mutation is committed.
-/

namespace AddressApp

/-- The persisted address row (SQLAlchemy model Address, table addresses
in src/main.py): an integer primary key id, four text fields and the
latitude/longitude coordinates. -/
structure Address where
  id : Nat
  street : String
  city : String
  state : String
  country : String
  latitude : ℚ
  longitude : ℚ
deriving DecidableEq, Repr

/-- The error outcomes the service surfaces: the pydantic coordinate
validation failure on create, and the 404 raised by update/delete when no
row has the requested id. -/
inductive ApiError where
  | invalidCoordinate
  | notFound
deriving DecidableEq, Repr

/-- The persistent store: the address table in insertion order, plus the
counter from which the store assigns the next fresh integer primary key
on insert. -/
structure Store where
  addresses : List Address
  nextId : Nat
deriving DecidableEq, Repr

/-- A store is well formed when every persisted id is below the fresh-id
counter (the invariant an autoincrementing primary key maintains). -/
def Store.WF (db : Store) : Prop :=
  ∀ a ∈ db.addresses, a.id < db.nextId

instance (db : Store) : Decidable db.WF := by
  unfold Store.WF; infer_instance

/-- The request body of the create endpoint (pydantic model
AddressCreate in src/main.py): all six fields required, no id. -/
structure AddressCreate where
  street : String
  city : String
  state : String
  country : String
  latitude : ℚ
  longitude : ℚ
deriving DecidableEq, Repr

/-- The coordinate validation pydantic applies to AddressCreate: the
Field bounds (ge -90 / le 90 and ge -180 / le 180) and the explicit
field validator impose the same inclusive ranges. -/
def AddressCreate.validCoordinates (body : AddressCreate) : Prop :=
  -90 ≤ body.latitude ∧ body.latitude ≤ 90 ∧
    -180 ≤ body.longitude ∧ body.longitude ≤ 180

instance (body : AddressCreate) : Decidable body.validCoordinates := by
  unfold AddressCreate.validCoordinates; infer_instance

/-- The request body of the update endpoint (pydantic model
AddressUpdate in src/main.py): every field optional, defaulting to None;
no coordinate validator is declared on this model. -/
structure AddressUpdate where
  street : Option String
  city : Option String
  state : Option String
  country : Option String
  latitude : Option ℚ
  longitude : Option ℚ
deriving DecidableEq, Repr

/-- create_address (src/main.py lines 60-66): the request body is
validated by pydantic before the handler runs, so out-of-range
coordinates are rejected with no store mutation; otherwise a row with
the six supplied fields and a freshly assigned id is inserted and the
stored record is returned. -/
def create_address (body : AddressCreate) (db : Store) :
    Except ApiError Address × Store :=
  if body.validCoordinates then
    let record : Address :=
      { id := db.nextId, street := body.street, city := body.city,
        state := body.state, country := body.country,
        latitude := body.latitude, longitude := body.longitude }
    (.ok record,
      { addresses := db.addresses ++ [record], nextId := db.nextId + 1 })
  else
    (.error .invalidCoordinate, db)

/-- The setattr loop of update_address (src/main.py lines 73-75): each
field of the body that is not None overwrites the corresponding stored
field, in field-declaration order; None fields are skipped. -/
def applyUpdate (a : Address) (body : AddressUpdate) : Address :=
  let a1 := match body.street with
    | some v => { a with street := v }
    | none => a
  let a2 := match body.city with
    | some v => { a1 with city := v }
    | none => a1
  let a3 := match body.state with
    | some v => { a2 with state := v }
    | none => a2
  let a4 := match body.country with
    | some v => { a3 with country := v }
    | none => a3
  let a5 := match body.latitude with
    | some v => { a4 with latitude := v }
    | none => a4
  match body.longitude with
  | some v => { a5 with longitude := v }
  | none => a5

/-- Overwrite the first row carrying the given id (the row that
query.filter(...).first() returns is mutated in place and committed);
rows before and after it are untouched. -/
def updateFirst (l : List Address) (i : Nat) (f : Address → Address) :
    List Address :=
  match l with
  | [] => []
  | a :: rest =>
    if a.id = i then f a :: rest else a :: updateFirst rest i f

/-- Remove the first row carrying the given id (db.delete on the row
first() returned). -/
def removeFirst (l : List Address) (i : Nat) : List Address :=
  match l with
  | [] => []
  | a :: rest => if a.id = i then rest else a :: removeFirst rest i

/-- update_address (src/main.py lines 68-78): look up the first row with
the requested id; if none exists raise 404 with the store untouched;
otherwise overwrite its non-None fields, commit, and return the updated
row.  No coordinate validation is applied on this path. -/
def update_address (address_id : Nat) (body : AddressUpdate) (db : Store) :
    Except ApiError Address × Store :=
  match db.addresses.find? (fun a => a.id == address_id) with
  | none => (.error .notFound, db)
  | some a =>
    (.ok (applyUpdate a body),
      { db with
          addresses := updateFirst db.addresses address_id
            (fun b => applyUpdate b body) })

/-- delete_address (src/main.py lines 80-87): look up the first row with
the requested id; if none exists raise 404 with the store untouched;
otherwise delete that row and return the confirmation detail string. -/
def delete_address (address_id : Nat) (db : Store) :
    Except ApiError String × Store :=
  match db.addresses.find? (fun a => a.id == address_id) with
  | none => (.error .notFound, db)
  | some _ =>
    (.ok "Address deleted",
      { db with addresses := removeFirst db.addresses address_id })

/-- Degrees to radians, for a coordinate given as an exact rational. -/
noncomputable def degToRad (x : ℚ) : ℝ := (x : ℝ) * Real.pi / 180

/-- The haversine of an angle. -/
noncomputable def haversine (θ : ℝ) : ℝ := Real.sin (θ / 2) ^ 2

/-- Modelled from the spec: the great-circle distance engine.  The
source delegates this computation to the external geopy library
(geodesic(center, point).km in src/main.py line 96), whose implementation
is not part of this repository; spec section 4.3 admits any standard
spherical geodesic formula and names the haversine formula as acceptable,
so the engine is embedded as the haversine great-circle distance, in
kilometers, on a sphere of radius 6371 km, with coordinates in degrees. -/
noncomputable def greatCircleDistanceKm (p q : ℚ × ℚ) : ℝ :=
  2 * 6371 * Real.arcsin (Real.sqrt
    (haversine (degToRad q.1 - degToRad p.1) +
      Real.cos (degToRad p.1) * Real.cos (degToRad q.1) *
        haversine (degToRad q.2 - degToRad p.2)))

/-- The filter condition of the proximity loop (src/main.py line 97):
the distance from the query center to the row's coordinates is at most
distance_km. -/
noncomputable def withinDistance (lat lon distance_km : ℚ) (a : Address) :
    Prop :=
  greatCircleDistanceKm (lat, lon) (a.latitude, a.longitude) ≤
    (distance_km : ℝ)

open Classical in
/-- read_addresses_within_distance (src/main.py lines 89-99): fetch
every row, and accumulate in order those whose great-circle distance
from the center (lat, lon) is at most distance_km.  No coordinate or
radius validation is performed and no error is ever raised. -/
noncomputable def read_addresses_within_distance
    (lat lon distance_km : ℚ) (db : Store) : List Address :=
  db.addresses.foldl
    (fun result address =>
      if withinDistance lat lon distance_km address then
        result ++ [address]
      else
        result) []

/-- A concrete stored row, used to instantiate theorems at concrete
inputs. -/
def sampleAddress : Address :=
  { id := 1, street := "Broadway", city := "New York", state := "NY",
    country := "USA", latitude := 40, longitude := -74 }

/-- A concrete one-row store, used to instantiate theorems at concrete
inputs. -/
def sampleStore : Store :=
  { addresses := [sampleAddress], nextId := 2 }

/-- A concrete create request body, used to instantiate theorems at
concrete inputs. -/
def sampleBody : AddressCreate :=
  { street := "Baker Street", city := "London", state := "LDN",
    country := "UK", latitude := 51, longitude := 0 }

/-- A concrete partial update supplying only the city, used to
instantiate theorems at concrete inputs. -/
def sampleUpdateCity : AddressUpdate :=
  { street := none, city := some "Brooklyn", state := none,
    country := none, latitude := none, longitude := none }

theorem haversine_zero : haversine 0 = 0 := by
  simp [haversine]

theorem haversine_sub_symm (x y : ℝ) : haversine (x - y) = haversine (y - x) := by
  unfold haversine
  rw [show (x - y) / 2 = -((y - x) / 2) by ring, Real.sin_neg]
  ring

theorem greatCircleDistanceKm_self (p : ℚ × ℚ) :
    greatCircleDistanceKm p p = 0 := by
  unfold greatCircleDistanceKm
  simp [haversine_zero]

theorem greatCircleDistanceKm_symm (p q : ℚ × ℚ) :
    greatCircleDistanceKm p q = greatCircleDistanceKm q p := by
  unfold greatCircleDistanceKm
  rw [haversine_sub_symm (degToRad q.1) (degToRad p.1),
    haversine_sub_symm (degToRad q.2) (degToRad p.2),
    mul_comm (Real.cos (degToRad p.1)) (Real.cos (degToRad q.1))]

theorem greatCircleDistanceKm_nonneg (p q : ℚ × ℚ) :
    0 ≤ greatCircleDistanceKm p q := by
  unfold greatCircleDistanceKm
  exact mul_nonneg (by norm_num) (Real.arcsin_nonneg.mpr (Real.sqrt_nonneg _))

open Classical in
theorem searchFold_eq_filter (lat lon distance_km : ℚ)
    (l acc : List Address) :
    l.foldl
        (fun result address =>
          if withinDistance lat lon distance_km address then
            result ++ [address]
          else
            result) acc
      = acc ++ l.filter fun a => decide (withinDistance lat lon distance_km a) := by
  induction l generalizing acc with
  | nil => simp
  | cons a t ih =>
    by_cases h : withinDistance lat lon distance_km a
    · simp [List.foldl_cons, h, ih]
    · simp [List.foldl_cons, h, ih]

open Classical in
theorem read_addresses_eq_filter (lat lon distance_km : ℚ) (db : Store) :
    read_addresses_within_distance lat lon distance_km db
      = db.addresses.filter fun a => decide (withinDistance lat lon distance_km a) := by
  unfold read_addresses_within_distance
  simpa using searchFold_eq_filter lat lon distance_km db.addresses []

theorem mem_read_iff (lat lon distance_km : ℚ) (db : Store) (a : Address) :
    a ∈ read_addresses_within_distance lat lon distance_km db ↔
      a ∈ db.addresses ∧ withinDistance lat lon distance_km a := by
  rw [read_addresses_eq_filter]
  simp [List.mem_filter]

/-- C1: for every store contents, center and radius, the proximity
search returns exactly the stored records whose great-circle distance
from the center is at most the radius, and in particular a record at
distance exactly the radius is included (inclusive boundary). -/
theorem proximity_search_membership (lat lon distance_km : ℚ)
    (db : Store) (a : Address) :
    (a ∈ read_addresses_within_distance lat lon distance_km db ↔
        a ∈ db.addresses ∧
          greatCircleDistanceKm (lat, lon) (a.latitude, a.longitude) ≤
            (distance_km : ℝ)) ∧
      ((a ∈ db.addresses ∧
          greatCircleDistanceKm (lat, lon) (a.latitude, a.longitude) =
            (distance_km : ℝ)) →
        a ∈ read_addresses_within_distance lat lon distance_km db) := by
  refine ⟨mem_read_iff lat lon distance_km db a, fun h => ?_⟩
  exact (mem_read_iff lat lon distance_km db a).mpr ⟨h.1, le_of_eq h.2⟩

open Classical in
/-- C2: the proximity search result is the subsequence of the store's
rows (in store order) satisfying the distance filter: it equals the
order-preserving filter of the row list, and is a sublist of it; no
distance-based sort is applied. -/
theorem proximity_search_order (lat lon distance_km : ℚ) (db : Store) :
    read_addresses_within_distance lat lon distance_km db
        = db.addresses.filter
            (fun a => decide (withinDistance lat lon distance_km a)) ∧
      (read_addresses_within_distance lat lon distance_km db).Sublist
        db.addresses := by
  refine ⟨read_addresses_eq_filter lat lon distance_km db, ?_⟩
  rw [read_addresses_eq_filter]
  exact List.filter_sublist _

/-- C8: the distance engine is zero on identical points, symmetric, and
non-negative. -/
theorem distance_engine_metric_properties (p q : ℚ × ℚ) :
    greatCircleDistanceKm p p = 0 ∧
      greatCircleDistanceKm p q = greatCircleDistanceKm q p ∧
      0 ≤ greatCircleDistanceKm p q :=
  ⟨greatCircleDistanceKm_self p, greatCircleDistanceKm_symm p q,
    greatCircleDistanceKm_nonneg p q⟩

/-- C9: the proximity search does not validate the center coordinates:
even for a center outside the latitude/longitude domain, the search
produces the well-defined result characterised by the distance filter
(it never fails). -/
theorem proximity_search_center_unvalidated (lat lon distance_km : ℚ)
    (db : Store)
    (_hout : lat < -90 ∨ 90 < lat ∨ lon < -180 ∨ 180 < lon) :
    ∀ a : Address,
      a ∈ read_addresses_within_distance lat lon distance_km db ↔
        a ∈ db.addresses ∧
          greatCircleDistanceKm (lat, lon) (a.latitude, a.longitude) ≤
            (distance_km : ℝ) :=
  fun a => mem_read_iff lat lon distance_km db a

/-- C9 witness: an out-of-range center (latitude 200) at a concrete
store. -/
theorem proximity_search_center_unvalidated_w :
    ((200 : ℚ) < -90 ∨ (90 : ℚ) < 200 ∨ (0 : ℚ) < -180 ∨ (180 : ℚ) < 0) ∧
      ∀ a : Address,
        a ∈ read_addresses_within_distance 200 0 100 sampleStore ↔
          a ∈ sampleStore.addresses ∧
            greatCircleDistanceKm (200, 0) (a.latitude, a.longitude) ≤
              ((100 : ℚ) : ℝ) :=
  ⟨by decide,
    proximity_search_center_unvalidated 200 0 100 sampleStore (by decide)⟩

/-- C10: a proximity search with a negative radius succeeds and returns
the empty list, since every computed distance is non-negative. -/
theorem negative_radius_empty (lat lon distance_km : ℚ) (db : Store)
    (hneg : distance_km < 0) :
    read_addresses_within_distance lat lon distance_km db = [] := by
  rw [read_addresses_eq_filter]
  refine List.filter_eq_nil_iff.mpr fun a _ => ?_
  simp only [decide_eq_true_eq]
  intro h
  have h0 := greatCircleDistanceKm_nonneg (lat, lon) (a.latitude, a.longitude)
  have hneg2 : (distance_km : ℝ) < 0 := by exact_mod_cast hneg
  exact absurd (le_trans h0 h) (not_le.mpr hneg2)

/-- C10 witness: a negative radius at a concrete store. -/
theorem negative_radius_empty_w :
    (-1 : ℚ) < 0 ∧
      read_addresses_within_distance 40 (-74) (-1) sampleStore = [] :=
  ⟨by decide, negative_radius_empty 40 (-74) (-1) sampleStore (by decide)⟩

theorem applyUpdate_fields (a : Address) (body : AddressUpdate) :
    (applyUpdate a body).street = body.street.getD a.street ∧
      (applyUpdate a body).city = body.city.getD a.city ∧
      (applyUpdate a body).state = body.state.getD a.state ∧
      (applyUpdate a body).country = body.country.getD a.country ∧
      (applyUpdate a body).latitude = body.latitude.getD a.latitude ∧
      (applyUpdate a body).longitude = body.longitude.getD a.longitude := by
  obtain ⟨s, c, st, co, la, lo⟩ := body
  cases s <;> cases c <;> cases st <;> cases co <;> cases la <;> cases lo <;>
    exact ⟨rfl, rfl, rfl, rfl, rfl, rfl⟩

theorem applyUpdate_mem_updateFirst (l : List Address) (i : Nat)
    (f : Address → Address) (a : Address)
    (hfind : l.find? (fun b => b.id == i) = some a) :
    f a ∈ updateFirst l i f := by
  induction l with
  | nil => simp at hfind
  | cons c t ih =>
    rcases List.find?_cons_eq_some.mp hfind with ⟨hpc, hca⟩ | ⟨hpc, hrest⟩
    · have h : c.id = i := by simpa using hpc
      subst hca
      unfold updateFirst
      rw [if_pos h]
      exact List.mem_cons_self _ _
    · have h : ¬c.id = i := by simpa using hpc
      unfold updateFirst
      rw [if_neg h]
      exact List.mem_cons_of_mem _ (ih hrest)

/-- C3: for a valid request body and a well-formed store, the create
endpoint appends a new record carrying a fresh id (distinct from every
persisted id), and returns exactly that stored record, id included. -/
theorem create_address_persists_fresh_id (body : AddressCreate) (db : Store)
    (hwf : db.WF) (hv : body.validCoordinates) :
    ∃ r : Address,
      create_address body db =
          (Except.ok r,
            { addresses := db.addresses ++ [r], nextId := db.nextId + 1 }) ∧
        r ∈ (create_address body db).2.addresses ∧
        (∀ a ∈ db.addresses, a.id ≠ r.id) ∧
        r.id = db.nextId ∧
        r.street = body.street ∧ r.city = body.city ∧ r.state = body.state ∧
        r.country = body.country ∧ r.latitude = body.latitude ∧
        r.longitude = body.longitude := by
  refine ⟨⟨db.nextId, body.street, body.city, body.state, body.country,
      body.latitude, body.longitude⟩,
    ?_, ?_, ?_, rfl, rfl, rfl, rfl, rfl, rfl, rfl⟩
  · unfold create_address
    rw [if_pos hv]
  · simp [create_address, hv]
  · intro a ha
    exact Nat.ne_of_lt (hwf a ha)

/-- C3 witness: a concrete valid create request at a concrete
well-formed store. -/
theorem create_address_persists_fresh_id_w :
    sampleStore.WF ∧ sampleBody.validCoordinates ∧
      ∃ r : Address,
        create_address sampleBody sampleStore =
            (Except.ok r,
              { addresses := sampleStore.addresses ++ [r], nextId := sampleStore.nextId + 1 }) ∧
          r ∈ (create_address sampleBody sampleStore).2.addresses ∧
          (∀ a ∈ sampleStore.addresses, a.id ≠ r.id) ∧
          r.id = sampleStore.nextId ∧
          r.street = sampleBody.street ∧ r.city = sampleBody.city ∧
          r.state = sampleBody.state ∧ r.country = sampleBody.country ∧
          r.latitude = sampleBody.latitude ∧
          r.longitude = sampleBody.longitude :=
  ⟨by decide, by decide,
    create_address_persists_fresh_id sampleBody sampleStore
      (by decide) (by decide)⟩

/-- C4: the create endpoint fails with the coordinate validation error
exactly when the supplied latitude is outside the closed range -90..90
or the supplied longitude is outside -180..180; otherwise it returns a
created record. -/
theorem create_address_invalid_iff (body : AddressCreate) (db : Store) :
    ((create_address body db).1 = Except.error ApiError.invalidCoordinate ↔
        (body.latitude < -90 ∨ 90 < body.latitude ∨
          body.longitude < -180 ∨ 180 < body.longitude)) ∧
      (¬(body.latitude < -90 ∨ 90 < body.latitude ∨
          body.longitude < -180 ∨ 180 < body.longitude) ↔
        ∃ r, (create_address body db).1 = Except.ok r) := by
  have hiff : ¬(body.latitude < -90 ∨ 90 < body.latitude ∨
      body.longitude < -180 ∨ 180 < body.longitude) ↔
      body.validCoordinates := by
    unfold AddressCreate.validCoordinates
    push_neg
    exact Iff.rfl
  by_cases hv : body.validCoordinates
  · have h1 : (create_address body db).1 = Except.ok
        ⟨db.nextId, body.street, body.city, body.state, body.country,
          body.latitude, body.longitude⟩ := by
      simp [create_address, hv]
    constructor
    · rw [h1]
      exact iff_of_false (by simp) (fun hd => (hiff.mpr hv) hd)
    · exact iff_of_true (hiff.mpr hv) ⟨_, h1⟩
  · have h1 : (create_address body db).1 =
        Except.error ApiError.invalidCoordinate := by
      simp [create_address, hv]
    constructor
    · refine iff_of_true h1 ?_
      by_contra hd
      exact hv (hiff.mp hd)
    · refine iff_of_false (fun hn => hv (hiff.mp hn)) ?_
      rintro ⟨r, hr⟩
      rw [h1] at hr
      exact absurd hr (by simp)

/-- C5: when a row with the requested id exists, the update endpoint
succeeds and the resulting stored record takes each supplied field from
the request body and keeps each absent field from the stored row; in
particular an update supplying only the city leaves the coordinates
unchanged. -/
theorem update_address_partial_fields (address_id : Nat)
    (body : AddressUpdate) (db : Store) (a : Address)
    (hfind : db.addresses.find? (fun b => b.id == address_id) = some a) :
    ∃ r s2, update_address address_id body db = (Except.ok r, s2) ∧
      r ∈ s2.addresses ∧
      (r.street = body.street.getD a.street ∧
        r.city = body.city.getD a.city ∧
        r.state = body.state.getD a.state ∧
        r.country = body.country.getD a.country ∧
        r.latitude = body.latitude.getD a.latitude ∧
        r.longitude = body.longitude.getD a.longitude) := by
  have h2 : (update_address address_id body db).2.addresses
      = updateFirst db.addresses address_id (fun b => applyUpdate b body) := by
    unfold update_address
    rw [hfind]
  have heq : update_address address_id body db
      = (Except.ok (applyUpdate a body),
        (update_address address_id body db).2) := by
    unfold update_address
    rw [hfind]
  refine ⟨applyUpdate a body, (update_address address_id body db).2, heq,
    ?_, applyUpdate_fields a body⟩
  rw [h2]
  exact applyUpdate_mem_updateFirst db.addresses address_id _ a hfind

/-- C5 witness: updating only the city of a concrete stored row. -/
theorem update_address_partial_fields_w :
    sampleStore.addresses.find? (fun b => b.id == 1) = some sampleAddress ∧
      ∃ r s2, update_address 1 sampleUpdateCity sampleStore
          = (Except.ok r, s2) ∧
        r ∈ s2.addresses ∧
        (r.street = sampleUpdateCity.street.getD sampleAddress.street ∧
          r.city = sampleUpdateCity.city.getD sampleAddress.city ∧
          r.state = sampleUpdateCity.state.getD sampleAddress.state ∧
          r.country = sampleUpdateCity.country.getD sampleAddress.country ∧
          r.latitude = sampleUpdateCity.latitude.getD sampleAddress.latitude ∧
          r.longitude =
            sampleUpdateCity.longitude.getD sampleAddress.longitude) :=
  ⟨rfl, update_address_partial_fields 1 sampleUpdateCity sampleStore
    sampleAddress rfl⟩

/-- C6: update and delete fail with the not-found error exactly when no
stored row carries the requested id, and any failing call returns the
store unchanged. -/
theorem mutation_notfound_iff (address_id : Nat) (body : AddressUpdate)
    (db : Store) :
    ((update_address address_id body db).1 =
          Except.error ApiError.notFound ↔
        ∀ a ∈ db.addresses, a.id ≠ address_id) ∧
      ((delete_address address_id db).1 = Except.error ApiError.notFound ↔
        ∀ a ∈ db.addresses, a.id ≠ address_id) ∧
      (∀ e, (update_address address_id body db).1 = Except.error e →
        (update_address address_id body db).2 = db) ∧
      (∀ e, (delete_address address_id db).1 = Except.error e →
        (delete_address address_id db).2 = db) := by
  cases hf : db.addresses.find? (fun b => b.id == address_id) with
  | none =>
    have habs : ∀ a ∈ db.addresses, a.id ≠ address_id := by
      intro a ha
      simpa using List.find?_eq_none.mp hf a ha
    refine ⟨iff_of_true ?_ habs, iff_of_true ?_ habs, ?_, ?_⟩
    · unfold update_address
      rw [hf]
    · unfold delete_address
      rw [hf]
    · intro e _
      unfold update_address
      rw [hf]
    · intro e _
      unfold delete_address
      rw [hf]
  | some a =>
    have hmem : a ∈ db.addresses := List.mem_of_find?_eq_some hf
    have hid : a.id = address_id := by simpa using List.find?_some hf
    have habs : ¬∀ b ∈ db.addresses, b.id ≠ address_id :=
      fun h => h a hmem hid
    have hu : (update_address address_id body db).1 =
        Except.ok (applyUpdate a body) := by
      unfold update_address
      rw [hf]
    have hd : (delete_address address_id db).1 =
        Except.ok "Address deleted" := by
      unfold delete_address
      rw [hf]
    refine ⟨iff_of_false ?_ habs, iff_of_false ?_ habs, ?_, ?_⟩
    · rw [hu]
      simp
    · rw [hd]
      simp
    · intro e he
      rw [hu] at he
      exact absurd he (by simp)
    · intro e he
      rw [hd] at he
      exact absurd he (by simp)

/-- C7: the update endpoint applies no coordinate validation: updating
an existing row with an out-of-range latitude and longitude succeeds
(it is not rejected with the coordinate validation error) and persists
the out-of-range coordinates in the store. -/
theorem update_address_skips_validation (address_id : Nat) (db : Store)
    (a : Address) (lat lon : ℚ)
    (hfind : db.addresses.find? (fun b => b.id == address_id) = some a)
    (_hout : lat < -90 ∨ 90 < lat ∨ lon < -180 ∨ 180 < lon) :
    ∃ r s2,
      update_address address_id ⟨none, none, none, none, some lat, some lon⟩ db
          = (Except.ok r, s2) ∧
        r.latitude = lat ∧ r.longitude = lon ∧ r ∈ s2.addresses := by
  have h2 : (update_address address_id
        ⟨none, none, none, none, some lat, some lon⟩ db).2.addresses
      = updateFirst db.addresses address_id
          (fun b => applyUpdate b ⟨none, none, none, none, some lat, some lon⟩) := by
    unfold update_address
    rw [hfind]
  have heq : update_address address_id
        ⟨none, none, none, none, some lat, some lon⟩ db
      = (Except.ok (applyUpdate a ⟨none, none, none, none, some lat, some lon⟩),
        (update_address address_id
          ⟨none, none, none, none, some lat, some lon⟩ db).2) := by
    unfold update_address
    rw [hfind]
  refine ⟨applyUpdate a ⟨none, none, none, none, some lat, some lon⟩,
    (update_address address_id
      ⟨none, none, none, none, some lat, some lon⟩ db).2, heq, rfl, rfl, ?_⟩
  rw [h2]
  exact applyUpdate_mem_updateFirst db.addresses address_id _ a hfind

/-- C7 witness: updating a concrete stored row with latitude 1000 and
longitude 500. -/
theorem update_address_skips_validation_w :
    sampleStore.addresses.find? (fun b => b.id == 1) = some sampleAddress ∧
      ((1000 : ℚ) < -90 ∨ (90 : ℚ) < 1000 ∨
        (500 : ℚ) < -180 ∨ (180 : ℚ) < 500) ∧
      ∃ r s2,
        update_address 1 ⟨none, none, none, none, some 1000, some 500⟩
            sampleStore
            = (Except.ok r, s2) ∧
          r.latitude = 1000 ∧ r.longitude = 500 ∧ r ∈ s2.addresses :=
  ⟨rfl, by decide,
    update_address_skips_validation 1 sampleStore sampleAddress 1000 500
      rfl (by decide)⟩

end AddressApp
